import Mathlib

/-!
# Verification of the cr14 example scripts' wire protocol

A shallow embedding of the protocol logic of the seven example scripts
(`dump_counter.py`, `dump_512_bytes.py`, `erase_blocks.py`,
`read_system_block.py`, `simple_uid_reader.py`, `write_block.py`,
`write_blocks.py`).  The byte stream delivered by the device is a
`List Nat` of byte values; `os.read(fd, n)` consumes `n` bytes from the
front and blocks (modelled as `none`) when fewer are available.
-/

namespace CR14

/-! ## Wire tags -/

def uTag : Nat := 117  -- 'u', announcement
def pTag : Nat := 112  -- 'p', poll request
def rTag : Nat := 114  -- 'r', read single block
def bigRTag : Nat := 82   -- 'R', read multiple blocks
def wTag : Nat := 119  -- 'w', write single block
def bigWTag : Nat := 87   -- 'W', write multiple blocks

/-! ## Byte-stream reads -/

/-- `os.read(fd, n)`: take `n` bytes off the stream, or block (`none`). -/
def readBytes (n : Nat) (s : List Nat) : Option (List Nat × List Nat) :=
  if n ≤ s.length then some (s.take n, s.drop n) else none

/-- The announcement-discard loop shared by the scripts:
`packet = os.read(rfid, 1); while packet == b"u": os.read(rfid, 8);
packet = os.read(rfid, 1)` (e.g. `dump_counter.py` lines 24-27).
Returns the first non-announcement tag byte and the rest of the stream. -/
def skipAnnouncements : List Nat → Option (Nat × List Nat)
  | [] => none
  | t :: rest =>
    if t = uTag then
      match rest with
      | _ :: _ :: _ :: _ :: _ :: _ :: _ :: _ :: rest2 => skipAnnouncements rest2
      | _ => none
    else some (t, rest)

/-! ## Reply handling, one definition per script site -/

inductive ReadSingleOutcome where
  | ok (data : List Nat)
  | unexpectedHeader (t : Nat)
deriving DecidableEq

/-- `write_block.py` lines 25-31 / 45-46: after the `r` request, skip
announcements; on tag `r` read the 4 data bytes, otherwise report an
unexpected packet header. -/
def readSingleReply (s : List Nat) : Option (ReadSingleOutcome × List Nat) :=
  match skipAnnouncements s with
  | none => none
  | some (t, rest) =>
    if t = rTag then
      match readBytes 4 rest with
      | none => none
      | some (data, rest2) => some (.ok data, rest2)
    else some (.unexpectedHeader t, rest)

inductive WriteSingleOutcome where
  | ok (mismatchReports : Nat) (echoed : List Nat)
  | unexpectedPacket (t : Nat)
deriving DecidableEq

/-- `write_block.py` lines 36-44: after the `w` request a single tag byte
is read, with NO announcement-discard loop; on tag `w` the 4 echoed bytes
are read and compared with the data sent (one mismatch report when they
differ), otherwise an unexpected packet is reported. -/
def writeSingleReply (sentData : List Nat) (s : List Nat) :
    Option (WriteSingleOutcome × List Nat) :=
  match s with
  | [] => none
  | t :: rest =>
    if t = wTag then
      match readBytes 4 rest with
      | none => none
      | some (echoed, rest2) =>
        some (.ok (if echoed ≠ sentData then 1 else 0) echoed, rest2)
    else some (.unexpectedPacket t, rest)

inductive MultiReadOutcome where
  | ok (countWarning : Bool) (blocks : List (List Nat))
  | unexpectedHeader (t : Nat)
deriving DecidableEq

/-- `dump_counter.py` lines 24-35: skip announcements; on tag `R` read the
count byte (warning when it is not 2) and then exactly two 4-byte blocks
(the loop is `for x in range(5, 7)`, independent of the declared count). -/
def dumpCounterReply (s : List Nat) : Option (MultiReadOutcome × List Nat) :=
  match skipAnnouncements s with
  | none => none
  | some (t, rest) =>
    if t = bigRTag then
      match readBytes 1 rest with
      | none => none
      | some (cb, rest1) =>
        match readBytes 4 rest1 with
        | none => none
        | some (b1, rest2) =>
          match readBytes 4 rest2 with
          | none => none
          | some (b2, rest3) =>
            some (.ok (decide (cb.headD 0 ≠ 2)) [b1, b2], rest3)
    else some (.unexpectedHeader t, rest)

/-- Read `n` four-byte blocks off the stream. -/
def readBlocks : Nat → List Nat → Option (List (List Nat) × List Nat)
  | 0, s => some ([], s)
  | n + 1, s =>
    match readBytes 4 s with
    | none => none
    | some (b, s2) =>
      match readBlocks n s2 with
      | none => none
      | some (bs, s3) => some (b :: bs, s3)

/-- `dump_512_bytes.py` lines 29-42: skip announcements; on tag `R` read
the count byte (warning when it is not 16) and then `count` 4-byte blocks
(the loop is `for x in range(0, count[0])`, driven by the declared count). -/
def dump512Reply (s : List Nat) : Option (MultiReadOutcome × List Nat) :=
  match skipAnnouncements s with
  | none => none
  | some (t, rest) =>
    if t = bigRTag then
      match readBytes 1 rest with
      | none => none
      | some (cb, rest1) =>
        match readBlocks (cb.headD 0) rest1 with
        | none => none
        | some (bs, rest2) => some (.ok (decide (cb.headD 0 ≠ 16)) bs, rest2)
    else some (.unexpectedHeader t, rest)

inductive EraseOutcome where
  | countMismatch (c : Nat)
  | done (mismatchReports : Nat) (echoed : List Nat)
  | unexpectedHeader (t : Nat)
deriving DecidableEq

/-- The 12 bytes written by `erase_blocks.py` (line 24). -/
def erasedData : List Nat := List.replicate 12 255

/-- `erase_blocks.py` lines 26-43: skip announcements; on tag `W` read the
count byte; when it is not 3 only a warning is printed and NO data bytes
are read (the read sits in the `else` branch); otherwise the 12 echoed
bytes are read and compared with the data sent. -/
def eraseReply (s : List Nat) : Option (EraseOutcome × List Nat) :=
  match skipAnnouncements s with
  | none => none
  | some (t, rest) =>
    if t = bigWTag then
      match readBytes 1 rest with
      | none => none
      | some (cb, rest1) =>
        if cb.headD 0 ≠ 3 then some (.countMismatch (cb.headD 0), rest1)
        else
          match readBytes 12 rest1 with
          | none => none
          | some (data, rest2) =>
            some (.done (if data ≠ erasedData then 1 else 0) data, rest2)
    else some (.unexpectedHeader t, rest)

/-! ## Request frames written by the scripts -/

/-- `os.write(rfid, b"p")`, every script. -/
def pollRequest : List Nat := [pTag]

/-- `write_block.py` line 24: `b"r" + uid_le + b"\x07"`. -/
def writeBlockReadRequest (uidLe : List Nat) : List Nat :=
  rTag :: uidLe ++ [7]

/-- `write_block.py` line 35: `b"w" + uid_le + b"\x07" + data`. -/
def writeBlockWriteRequest (uidLe data : List Nat) : List Nat :=
  wTag :: uidLe ++ 7 :: data

/-- `read_system_block.py` line 23: `b'r' + uid_le + b'\xFF'`. -/
def readSystemSingleRequest (uidLe : List Nat) : List Nat :=
  rTag :: uidLe ++ [255]

/-- `read_system_block.py` line 36: `b'R' + uid_le + b'\x01\xFF'`. -/
def readSystemMultiRequest (uidLe : List Nat) : List Nat :=
  bigRTag :: uidLe ++ [1, 255]

/-- `dump_counter.py` line 23: `b"R" + packet[1:] + b"\x02\x05\x06"`. -/
def dumpCounterRequest (uidLe : List Nat) : List Nat :=
  bigRTag :: uidLe ++ [2, 5, 6]

/-- `dump_512_bytes.py` lines 23-28: `b"R" + packet[1:] + b"\x10\x00..."`. -/
def dump512Request (uidLe : List Nat) : List Nat :=
  bigRTag :: uidLe ++ [16, 0, 1, 2, 3, 4, 5, 6, 7, 8, 9, 10, 11, 12, 13, 14, 15]

/-- `erase_blocks.py` line 25: `b"W" + uid_le + b"\x03\x07\x08\x09" + erased_data`. -/
def eraseRequest (uidLe : List Nat) : List Nat :=
  bigWTag :: uidLe ++ [3, 7, 8, 9] ++ erasedData

/-- `write_blocks.py` line 24: `b"R" + uid_le + b"\x03\x07\x08\x09"`. -/
def writeBlocksReadRequest (uidLe : List Nat) : List Nat :=
  bigRTag :: uidLe ++ [3, 7, 8, 9]

/-- `write_blocks.py` lines 37-45:
`b"W" + uid_le + b"\x03\x07\x08\x09" + block8 + block9 + block7`. -/
def writeBlocksRequest (uidLe b7 b8 b9 : List Nat) : List Nat :=
  bigWTag :: uidLe ++ [3, 7, 8, 9] ++ (b8 ++ b9 ++ b7)

/-! ## Spec-side frame formats (refinement targets)

These two definitions follow the spec's words (§4.1 / §6), not any one
script: single-block frames are tag + 8-byte UID + 1 address byte
[+ data]; multi-block frames are tag + UID + 1 count byte + that many
address bytes [+ data], the count byte being the number of addresses. -/

def specSingleFrame (tag : Nat) (uid : List Nat) (addr : Nat) (data : List Nat) :
    List Nat :=
  tag :: uid ++ addr :: data

def specMultiFrame (tag : Nat) (uid : List Nat) (addrs : List Nat) (data : List Nat) :
    List Nat :=
  tag :: uid ++ addrs.length :: addrs ++ data

/-! ## UID presentation -/

/-- `uid = bytearray(packet[1:]); uid.reverse()` — the UID shown to the
human-facing layer is the byte-reversal of the wire UID (all scripts). -/
def presentUid (wire : List Nat) : List Nat := wire.reverse

inductive PollOutcome where
  | ok (msbWarning : Bool) (request : List Nat)
  | unexpectedHeader (t : Nat)
deriving DecidableEq

/-- `dump_counter.py` lines 12-23: handle the 9-byte poll reply.  On tag
`u` the UID is reversed, a warning is printed when its first presentation
byte is not `0xD0`, and then the `R` request is written unconditionally. -/
def dumpCounterPoll (packet : List Nat) : PollOutcome :=
  if packet.headD 0 = uTag then
    .ok (decide (((packet.drop 1).reverse).headD 0 ≠ 0xD0))
      (dumpCounterRequest (packet.drop 1))
  else .unexpectedHeader (packet.headD 0)

/-! ## Model table of `simple_uid_reader.py` -/

structure ModelEntry where
  bits : Nat
  modelId : Nat
  name : String
deriving DecidableEq

/-- `MODELS[0x02]` of `simple_uid_reader.py` lines 5-53, in source order. -/
def MODELS02 : List ModelEntry :=
  [⟨6, 3, "SRIX4K"⟩, ⟨6, 6, "SRI512"⟩, ⟨6, 12, "SRT512"⟩, ⟨6, 7, "SRI4K"⟩,
   ⟨6, 15, "SRI2K"⟩, ⟨8, 27, "ST25TB512-AC"⟩, ⟨8, 31, "ST25TB04K"⟩,
   ⟨8, 51, "ST25TB512-AT"⟩, ⟨8, 63, "ST25TB02K"⟩]

/-- Matching rule of lines 103-106: compare the top `bits` bits of the
model byte to the entry's model id (`model = model >> (8 - bits)` when
`bits < 8`). -/
def entryMatches (b : Nat) (e : ModelEntry) : Bool :=
  (if e.bits < 8 then b >>> (8 - e.bits) else b) == e.modelId

/-- The entry a `for ... break` loop over `entries` selects. -/
def firstMatch (entries : List ModelEntry) (b : Nat) : Option ModelEntry :=
  entries.find? (entryMatches b)

/-- Python `a & ~b` for nonnegative `a`, `b`: keep the bits of `a` not
set in `b`. -/
def pyAndNot (a b : Nat) : Nat := a - Nat.land a b

structure ModelResult where
  uid2 : Nat
  serialStart : Nat
  modelName : Option String
deriving DecidableEq

/-- `simple_uid_reader.py` lines 99-115: `serial_start = 2`; scan the
entries, and at the first match either clear the matched bits of
presentation byte 2 (`uid[2] = uid[2] & ~(model << (8 - bits))`, when
`bits < 8`) or set `serial_start = 3` (when `bits == 8`), then break. -/
def processModels : List ModelEntry → Nat → ModelResult
  | [], b => ⟨b, 2, none⟩
  | e :: es, b =>
    let model := if e.bits < 8 then b >>> (8 - e.bits) else b
    if model = e.modelId then
      if e.bits < 8 then ⟨pyAndNot b (model <<< (8 - e.bits)), 2, some e.name⟩
      else ⟨b, 3, some e.name⟩
    else processModels es b

/-- Follows the spec's words for the serial-start rule (claim about lines
99-117): first matching entry of width `< 8` clears the top bits of byte 2
and keeps `serial_start = 2`; width-8 match keeps byte 2 and sets
`serial_start = 3`; no match keeps byte 2 and `serial_start = 2`. -/
def specSerialRule (entries : List ModelEntry) (b : Nat) : ModelResult :=
  match firstMatch entries b with
  | none => ⟨b, 2, none⟩
  | some e =>
    if e.bits < 8 then ⟨b % 2 ^ (8 - e.bits), 2, some e.name⟩
    else ⟨b, 3, some e.name⟩

/-! ## Python `int.to_bytes` and the counter decrement of `write_block.py` -/

/-- Little-endian byte list of `v`, `n` bytes. -/
def natToLE : Nat → Nat → List Nat
  | 0, _ => []
  | n + 1, v => v % 256 :: natToLE n (v / 256)

/-- Python `v.to_bytes(len, byteorder="little", signed=signed)`:
raises `OverflowError` (here `none`) when `v` is out of range for the
width, otherwise the `len` little-endian bytes of `v mod 2^(8*len)`. -/
def pyToBytes (len : Nat) (v : Int) (signed : Bool) : Option (List Nat) :=
  if signed then
    if -(2 ^ (8 * len - 1) : Int) ≤ v ∧ v < 2 ^ (8 * len - 1) then
      some (natToLE len (v.emod (2 ^ (8 * len))).toNat)
    else none
  else
    if 0 ≤ v ∧ v < 2 ^ (8 * len) then some (natToLE len v.toNat) else none

/-- `write_block.py` lines 33-34: `counter = counter - 1;
data = counter.to_bytes(4, byteorder="little", signed=counter < 0)`. -/
def decrementEncode (counter : Nat) : Option (List Nat) :=
  pyToBytes 4 ((counter : Int) - 1) (decide ((counter : Int) - 1 < 0))

/-! ## Announcement noise -/

/-- `us` well-formed announcement frames (`u` tag plus 8 UID bytes each)
prepended to the stream `s`. -/
def annNoise : List (List Nat) → List Nat → List Nat
  | [], s => s
  | u :: us, s => uTag :: (u ++ annNoise us s)

/-- The blocks a count-driven loop reads: `n` chunks of 4 bytes. -/
def chunks4 : Nat → List Nat → List (List Nat)
  | 0, _ => []
  | n + 1, s => s.take 4 :: chunks4 n (s.drop 4)

/-- The full write-single transaction of `write_block.py` lines 35-44:
exactly one request frame is written (the code is straight-line, there is
no retry loop), then the reply is handled. -/
def writeSingleTransaction (uidLe sentData reply : List Nat) :
    List (List Nat) × Option (WriteSingleOutcome × List Nat) :=
  ([writeBlockWriteRequest uidLe sentData], writeSingleReply sentData reply)

/-! ## Helper lemmas -/

lemma cons8_of_length (u : List Nat) (h : u.length = 8) :
    ∃ a₁ a₂ a₃ a₄ a₅ a₆ a₇ a₈, u = [a₁, a₂, a₃, a₄, a₅, a₆, a₇, a₈] := by
  rcases u with _ | ⟨a₁, u⟩
  · simp only [List.length_nil] at h; omega
  rcases u with _ | ⟨a₂, u⟩
  · simp only [List.length_cons, List.length_nil] at h; omega
  rcases u with _ | ⟨a₃, u⟩
  · simp only [List.length_cons, List.length_nil] at h; omega
  rcases u with _ | ⟨a₄, u⟩
  · simp only [List.length_cons, List.length_nil] at h; omega
  rcases u with _ | ⟨a₅, u⟩
  · simp only [List.length_cons, List.length_nil] at h; omega
  rcases u with _ | ⟨a₆, u⟩
  · simp only [List.length_cons, List.length_nil] at h; omega
  rcases u with _ | ⟨a₇, u⟩
  · simp only [List.length_cons, List.length_nil] at h; omega
  rcases u with _ | ⟨a₈, u⟩
  · simp only [List.length_cons, List.length_nil] at h; omega
  rcases u with _ | ⟨a₉, u⟩
  · exact ⟨a₁, a₂, a₃, a₄, a₅, a₆, a₇, a₈, rfl⟩
  · simp only [List.length_cons] at h; omega

lemma skipAnnouncements_ann (u s : List Nat) (h : u.length = 8) :
    skipAnnouncements (uTag :: u ++ s) = skipAnnouncements s := by
  obtain ⟨a₁, a₂, a₃, a₄, a₅, a₆, a₇, a₈, rfl⟩ := cons8_of_length u h
  simp [skipAnnouncements]

lemma skipAnnouncements_annNoise (us : List (List Nat))
    (h : ∀ u ∈ us, u.length = 8) (s : List Nat) :
    skipAnnouncements (annNoise us s) = skipAnnouncements s := by
  induction us with
  | nil => rfl
  | cons u us ih =>
    rw [annNoise, ← List.cons_append, skipAnnouncements_ann u _ (h u (by simp))]
    exact ih fun v hv => h v (by simp [hv])

lemma skipAnnouncements_cons_ne (t : Nat) (rest : List Nat) (h : t ≠ uTag) :
    skipAnnouncements (t :: rest) = some (t, rest) := by
  rw [skipAnnouncements.eq_def]
  simp [h]

lemma readBytes_one (c : Nat) (l : List Nat) : readBytes 1 (c :: l) = some ([c], l) := by
  simp [readBytes]

lemma readBytes_exact (n : Nat) (b rest : List Nat) (h : b.length = n) :
    readBytes n (b ++ rest) = some (b, rest) := by
  rw [readBytes, if_pos (by rw [List.length_append]; omega),
    List.take_left' h, List.drop_left' h]

lemma readBlocks_append (n : Nat) (body rest : List Nat) (h : body.length = 4 * n) :
    readBlocks n (body ++ rest) = some (chunks4 n body, rest) := by
  induction n generalizing body with
  | zero =>
    have hb : body = [] := List.length_eq_zero.mp (by omega)
    subst hb; rfl
  | succ n ih =>
    have h4 : 4 ≤ body.length := by omega
    simp only [readBlocks, readBytes,
      if_pos (by rw [List.length_append]; omega : 4 ≤ (body ++ rest).length),
      List.take_append_of_le_length h4, List.drop_append_of_le_length h4]
    rw [ih (body.drop 4) (by rw [List.length_drop]; omega)]
    simp [chunks4]

lemma chunks4_length (n : Nat) (s : List Nat) : (chunks4 n s).length = n := by
  induction n generalizing s with
  | zero => rfl
  | succ n ih => simp [chunks4, ih]

lemma natToLE_length (n v : Nat) : (natToLE n v).length = n := by
  induction n generalizing v with
  | zero => rfl
  | succ n ih => simp [natToLE, ih]

/-! ## C1: announcement noise -/

/-- **C1** (counterexample).  The claim is false for the write-single
transaction: `write_block.py` reads the `w` reply tag with no
announcement-discard loop (lines 36-37), so one announcement frame
arriving before the reply turns a successful echo into an
unexpected-packet fault. -/
theorem write_single_reply_announcement_changes_result :
    writeSingleReply [1, 2, 3, 4]
        (annNoise [[0, 0, 0, 0, 0, 0, 0, 0]] (wTag :: [1, 2, 3, 4])) ≠
      writeSingleReply [1, 2, 3, 4] (wTag :: [1, 2, 3, 4]) := by decide

/-- **C1** (amended).  For the reply readers that do contain the
peek-and-repeat loop — read-single (`write_block.py` lines 25-28),
both multi-block reads (`dump_counter.py`, `dump_512_bytes.py`) and the
multi-block write of `erase_blocks.py` — any number of well-formed
announcement frames prepended to the stream leaves the decoded reply
unchanged.  (The write replies of `write_block.py` and `write_blocks.py`
read the tag byte without the loop and are excluded.) -/
theorem looped_replies_invariant_under_announcements
    (us : List (List Nat)) (h : ∀ u ∈ us, u.length = 8) (s : List Nat) :
    readSingleReply (annNoise us s) = readSingleReply s ∧
    dumpCounterReply (annNoise us s) = dumpCounterReply s ∧
    dump512Reply (annNoise us s) = dump512Reply s ∧
    eraseReply (annNoise us s) = eraseReply s := by
  have key := skipAnnouncements_annNoise us h s
  exact ⟨by simp only [readSingleReply, key], by simp only [dumpCounterReply, key],
    by simp only [dump512Reply, key], by simp only [eraseReply, key]⟩

/-- Witness: one announcement frame in front of a concrete `r` reply. -/
theorem looped_replies_invariant_under_announcements_witness :
    readSingleReply (annNoise [[9, 9, 9, 9, 9, 9, 9, 9]] [rTag, 1, 2, 3, 4]) =
        readSingleReply [rTag, 1, 2, 3, 4] ∧
    dumpCounterReply (annNoise [[9, 9, 9, 9, 9, 9, 9, 9]] [rTag, 1, 2, 3, 4]) =
        dumpCounterReply [rTag, 1, 2, 3, 4] ∧
    dump512Reply (annNoise [[9, 9, 9, 9, 9, 9, 9, 9]] [rTag, 1, 2, 3, 4]) =
        dump512Reply [rTag, 1, 2, 3, 4] ∧
    eraseReply (annNoise [[9, 9, 9, 9, 9, 9, 9, 9]] [rTag, 1, 2, 3, 4]) =
        eraseReply [rTag, 1, 2, 3, 4] :=
  looped_replies_invariant_under_announcements [[9, 9, 9, 9, 9, 9, 9, 9]]
    (by decide) [rTag, 1, 2, 3, 4]

/-! ## C2: declared-count mismatch -/

/-- **C2** (counterexample).  In `erase_blocks.py` a declared count other
than the requested 3 only prints a warning: the echoed blocks present on
the stream are never read (the data read sits in the `else` branch), so
the transaction does not return the blocks actually present. -/
theorem erase_reply_count_mismatch_reads_no_blocks :
    eraseReply (bigWTag :: 2 :: List.replicate 8 255) =
      some (EraseOutcome.countMismatch 2, List.replicate 8 255) := by decide

/-- **C2** (amended).  For every declared count byte `c`:
`dump_512_bytes.py` warns when `c` differs from the requested 16 and still
reads and returns the `c` declared blocks; `dump_counter.py` warns when
`c` differs from the requested 2 but always reads exactly the 2 requested
blocks; `erase_blocks.py` reads and verifies the echoed data only when `c`
equals the requested 3, and on any other declared count warns and stops
without reading any block data. -/
theorem count_mismatch_behaviour (c : Nat) (_hc : c < 256)
    (body rest b1 b2 r2 : List Nat) (hbody : body.length = 4 * c)
    (h1 : b1.length = 4) (h2 : b2.length = 4) :
    dump512Reply (bigRTag :: c :: (body ++ rest)) =
      some (.ok (decide (c ≠ 16)) (chunks4 c body), rest) ∧
    (chunks4 c body).length = c ∧
    dumpCounterReply (bigRTag :: c :: (b1 ++ (b2 ++ r2))) =
      some (.ok (decide (c ≠ 2)) [b1, b2], r2) ∧
    eraseReply (bigWTag :: c :: (body ++ rest)) =
      (if c = 3 then
        some (.done (if body = erasedData then 0 else 1) body, rest)
       else some (.countMismatch c, body ++ rest)) := by
  have hRu : bigRTag ≠ uTag := by decide
  have hWu : bigWTag ≠ uTag := by decide
  refine ⟨?_, chunks4_length c body, ?_, ?_⟩
  · simp only [dump512Reply, skipAnnouncements_cons_ne _ _ hRu, readBytes_one,
      List.headD_cons, readBlocks_append c body rest hbody, if_true]
  · simp only [dumpCounterReply, skipAnnouncements_cons_ne _ _ hRu, readBytes_one,
      List.headD_cons, readBytes_exact 4 b1 _ h1, readBytes_exact 4 b2 _ h2, if_true]
  · by_cases h3 : c = 3
    · subst h3
      simp only [eraseReply, skipAnnouncements_cons_ne _ _ hWu, readBytes_one,
        List.headD_cons, readBytes_exact 12 body rest (by omega), if_true]
      by_cases hbe : body = erasedData <;> simp [hbe]
    · rw [if_neg h3]
      simp only [eraseReply, skipAnnouncements_cons_ne _ _ hWu, readBytes_one,
        List.headD_cons, if_pos h3, if_true]

/-- Witness: declared count 3 — the spec's own mismatch scenario against
the requested counts 16 (`dump_512_bytes.py`) and 2 (`dump_counter.py`). -/
theorem count_mismatch_behaviour_witness :
    dump512Reply (bigRTag :: 3 :: (List.replicate 12 0 ++ [])) =
      some (.ok (decide ((3 : Nat) ≠ 16)) (chunks4 3 (List.replicate 12 0)), []) ∧
    (chunks4 3 (List.replicate 12 0)).length = 3 ∧
    dumpCounterReply (bigRTag :: 3 :: ([1, 2, 3, 4] ++ ([5, 6, 7, 8] ++ []))) =
      some (.ok (decide ((3 : Nat) ≠ 2)) [[1, 2, 3, 4], [5, 6, 7, 8]], []) ∧
    eraseReply (bigWTag :: 3 :: (List.replicate 12 0 ++ [])) =
      (if (3 : Nat) = 3 then
        some (.done (if List.replicate 12 0 = erasedData then 0 else 1)
          (List.replicate 12 0), [])
       else some (.countMismatch 3, List.replicate 12 0 ++ [])) :=
  count_mismatch_behaviour 3 (by decide) (List.replicate 12 0) []
    [1, 2, 3, 4] [5, 6, 7, 8] [] (by decide) (by decide) (by decide)

/-! ## C3: write echo verification -/

/-- **C3** (confirmed).  The write transaction sends exactly one request
frame (the code is straight-line, so there is no automatic retry), and the
echoed data is compared byte-for-byte with the data sent: a faithful echo
produces zero mismatch reports if it matches and exactly one if it
differs, both in `write_block.py` (single write) and in `erase_blocks.py`
(multi write, after the count check passes). -/
theorem write_echo_verification (uidLe sentData echoed rest e12 rest2 : List Nat)
    (h4 : echoed.length = 4) (h12 : e12.length = 12) :
    (writeSingleTransaction uidLe sentData (wTag :: (echoed ++ rest))).1 =
      [writeBlockWriteRequest uidLe sentData] ∧
    writeSingleReply sentData (wTag :: (echoed ++ rest)) =
      some (.ok (if echoed = sentData then 0 else 1) echoed, rest) ∧
    eraseReply (bigWTag :: 3 :: (e12 ++ rest2)) =
      some (.done (if e12 = erasedData then 0 else 1) e12, rest2) := by
  refine ⟨rfl, ?_, ?_⟩
  · simp only [writeSingleReply, readBytes_exact 4 echoed rest h4]
    by_cases he : echoed = sentData <;> simp [he]
  · simp only [eraseReply, skipAnnouncements_cons_ne _ _ (by decide : bigWTag ≠ uTag),
      readBytes_one, List.headD_cons, readBytes_exact 12 e12 rest2 h12]
    by_cases he : e12 = erasedData <;> simp [he]

/-- Witness: a faithful single-write echo and a corrupted multi-write echo. -/
theorem write_echo_verification_witness :
    (writeSingleTransaction [1, 2, 3, 4, 5, 6, 7, 8] [1, 2, 3, 4]
        (wTag :: ([1, 2, 3, 4] ++ []))).1 =
      [writeBlockWriteRequest [1, 2, 3, 4, 5, 6, 7, 8] [1, 2, 3, 4]] ∧
    writeSingleReply [1, 2, 3, 4] (wTag :: ([1, 2, 3, 4] ++ [])) =
      some (.ok (if [1, 2, 3, 4] = [1, 2, 3, 4] then 0 else 1) [1, 2, 3, 4], []) ∧
    eraseReply (bigWTag :: 3 :: (List.replicate 12 0 ++ [])) =
      some (.done (if List.replicate 12 0 = erasedData then 0 else 1)
        (List.replicate 12 0), []) :=
  write_echo_verification [1, 2, 3, 4, 5, 6, 7, 8] [1, 2, 3, 4] [1, 2, 3, 4] []
    (List.replicate 12 0) [] (by decide) (by decide)

/-! ## C4: request frame formats -/

/-- **C4** (confirmed).  Every request frame any script writes has the
claimed encoding: poll is the bare `p` tag; single-block read/write is
tag + 8-byte wire UID + 1 address byte (+ 4 data bytes for the write);
multi-block read/write is tag + UID + 1 count byte + that many address
bytes (+ count × 4 data bytes for writes), the count byte equalling the
number of addresses, and every address list used is non-empty and
duplicate-free. -/
theorem request_frames_wellformed (uid d b7 b8 b9 : List Nat)
    (hu : uid.length = 8) (hd : d.length = 4)
    (h7 : b7.length = 4) (h8 : b8.length = 4) (h9 : b9.length = 4) :
    pollRequest = [pTag] ∧
    writeBlockReadRequest uid = specSingleFrame rTag uid 7 [] ∧
    writeBlockWriteRequest uid d = specSingleFrame wTag uid 7 d ∧
    (specSingleFrame wTag uid 7 d).length = 14 ∧
    readSystemSingleRequest uid = specSingleFrame rTag uid 255 [] ∧
    readSystemMultiRequest uid = specMultiFrame bigRTag uid [255] [] ∧
    dumpCounterRequest uid = specMultiFrame bigRTag uid [5, 6] [] ∧
    dump512Request uid =
      specMultiFrame bigRTag uid
        [0, 1, 2, 3, 4, 5, 6, 7, 8, 9, 10, 11, 12, 13, 14, 15] [] ∧
    writeBlocksReadRequest uid = specMultiFrame bigRTag uid [7, 8, 9] [] ∧
    eraseRequest uid = specMultiFrame bigWTag uid [7, 8, 9] erasedData ∧
    erasedData.length = 4 * 3 ∧
    writeBlocksRequest uid b7 b8 b9 =
      specMultiFrame bigWTag uid [7, 8, 9] (b8 ++ b9 ++ b7) ∧
    (b8 ++ b9 ++ b7).length = 4 * 3 ∧
    (([255] : List Nat) ≠ [] ∧ List.Nodup ([255] : List Nat)) ∧
    (([5, 6] : List Nat) ≠ [] ∧ List.Nodup ([5, 6] : List Nat)) ∧
    (([0, 1, 2, 3, 4, 5, 6, 7, 8, 9, 10, 11, 12, 13, 14, 15] : List Nat) ≠ [] ∧
      List.Nodup ([0, 1, 2, 3, 4, 5, 6, 7, 8, 9, 10, 11, 12, 13, 14, 15] : List Nat)) ∧
    (([7, 8, 9] : List Nat) ≠ [] ∧ List.Nodup ([7, 8, 9] : List Nat)) := by
  refine ⟨rfl, rfl, rfl, ?_, rfl, ?_, ?_, ?_, ?_, ?_, by decide, ?_, ?_, by decide,
    by decide, by decide, by decide⟩ <;>
    simp [specSingleFrame, specMultiFrame, readSystemMultiRequest, dumpCounterRequest,
      dump512Request, writeBlocksReadRequest, eraseRequest, writeBlocksRequest,
      erasedData, hu, hd, h7, h8, h9]

/-- Witness: the frame formats at a concrete UID and payloads. -/
theorem request_frames_wellformed_witness :
    pollRequest = [pTag] ∧
    writeBlockReadRequest [0, 1, 2, 3, 4, 5, 6, 7] =
      specSingleFrame rTag [0, 1, 2, 3, 4, 5, 6, 7] 7 [] ∧
    writeBlockWriteRequest [0, 1, 2, 3, 4, 5, 6, 7] [9, 9, 9, 9] =
      specSingleFrame wTag [0, 1, 2, 3, 4, 5, 6, 7] 7 [9, 9, 9, 9] ∧
    (specSingleFrame wTag [0, 1, 2, 3, 4, 5, 6, 7] 7 [9, 9, 9, 9]).length = 14 ∧
    readSystemSingleRequest [0, 1, 2, 3, 4, 5, 6, 7] =
      specSingleFrame rTag [0, 1, 2, 3, 4, 5, 6, 7] 255 [] ∧
    readSystemMultiRequest [0, 1, 2, 3, 4, 5, 6, 7] =
      specMultiFrame bigRTag [0, 1, 2, 3, 4, 5, 6, 7] [255] [] ∧
    dumpCounterRequest [0, 1, 2, 3, 4, 5, 6, 7] =
      specMultiFrame bigRTag [0, 1, 2, 3, 4, 5, 6, 7] [5, 6] [] ∧
    dump512Request [0, 1, 2, 3, 4, 5, 6, 7] =
      specMultiFrame bigRTag [0, 1, 2, 3, 4, 5, 6, 7]
        [0, 1, 2, 3, 4, 5, 6, 7, 8, 9, 10, 11, 12, 13, 14, 15] [] ∧
    writeBlocksReadRequest [0, 1, 2, 3, 4, 5, 6, 7] =
      specMultiFrame bigRTag [0, 1, 2, 3, 4, 5, 6, 7] [7, 8, 9] [] ∧
    eraseRequest [0, 1, 2, 3, 4, 5, 6, 7] =
      specMultiFrame bigWTag [0, 1, 2, 3, 4, 5, 6, 7] [7, 8, 9] erasedData ∧
    erasedData.length = 4 * 3 ∧
    writeBlocksRequest [0, 1, 2, 3, 4, 5, 6, 7] [1, 1, 1, 1] [2, 2, 2, 2] [3, 3, 3, 3] =
      specMultiFrame bigWTag [0, 1, 2, 3, 4, 5, 6, 7] [7, 8, 9]
        ([2, 2, 2, 2] ++ [3, 3, 3, 3] ++ [1, 1, 1, 1]) ∧
    ([2, 2, 2, 2] ++ [3, 3, 3, 3] ++ [1, 1, 1, 1] : List Nat).length = 4 * 3 ∧
    (([255] : List Nat) ≠ [] ∧ List.Nodup ([255] : List Nat)) ∧
    (([5, 6] : List Nat) ≠ [] ∧ List.Nodup ([5, 6] : List Nat)) ∧
    (([0, 1, 2, 3, 4, 5, 6, 7, 8, 9, 10, 11, 12, 13, 14, 15] : List Nat) ≠ [] ∧
      List.Nodup ([0, 1, 2, 3, 4, 5, 6, 7, 8, 9, 10, 11, 12, 13, 14, 15] : List Nat)) ∧
    (([7, 8, 9] : List Nat) ≠ [] ∧ List.Nodup ([7, 8, 9] : List Nat)) :=
  request_frames_wellformed [0, 1, 2, 3, 4, 5, 6, 7] [9, 9, 9, 9] [1, 1, 1, 1]
    [2, 2, 2, 2] [3, 3, 3, 3] (by decide) (by decide) (by decide) (by decide) (by decide)

/-! ## C5: unexpected reply header -/

/-- **C5** (confirmed).  When the tag byte read while awaiting a reply is
neither the announcement tag `u` nor the expected reply tag of the
outstanding request, the reply reader returns an unexpected-header fault
with the remainder of the stream untouched: no further bytes are read and
the transaction is not re-issued.  Each reader assumes only that the tag
differs from its own expected tag, so crossed tags of other operations
(e.g. `w` while awaiting `R`) are covered. -/
theorem unexpected_header_faults (t : Nat) (rest sent : List Nat)
    (hu : t ≠ uTag) :
    (t ≠ rTag → readSingleReply (t :: rest) = some (.unexpectedHeader t, rest)) ∧
    (t ≠ bigRTag → dumpCounterReply (t :: rest) = some (.unexpectedHeader t, rest)) ∧
    (t ≠ bigRTag → dump512Reply (t :: rest) = some (.unexpectedHeader t, rest)) ∧
    (t ≠ bigWTag → eraseReply (t :: rest) = some (.unexpectedHeader t, rest)) ∧
    (t ≠ wTag → writeSingleReply sent (t :: rest) = some (.unexpectedPacket t, rest)) := by
  have key := skipAnnouncements_cons_ne t rest hu
  refine ⟨fun hr => ?_, fun hR => ?_, fun hR => ?_, fun hW => ?_, fun hw => ?_⟩
  · simp only [readSingleReply, key, if_neg hr]
  · simp only [dumpCounterReply, key, if_neg hR]
  · simp only [dump512Reply, key, if_neg hR]
  · simp only [eraseReply, key, if_neg hW]
  · simp only [writeSingleReply, if_neg hw]

/-- Witness: tag `w` (119) while awaiting `r`, `R` or `W` replies faults
those readers, and tag `x` (120) faults the write reader. -/
theorem unexpected_header_faults_witness :
    readSingleReply (wTag :: [1, 2, 3]) = some (.unexpectedHeader wTag, [1, 2, 3]) ∧
    dumpCounterReply (wTag :: [1, 2, 3]) = some (.unexpectedHeader wTag, [1, 2, 3]) ∧
    dump512Reply (wTag :: [1, 2, 3]) = some (.unexpectedHeader wTag, [1, 2, 3]) ∧
    eraseReply (wTag :: [1, 2, 3]) = some (.unexpectedHeader wTag, [1, 2, 3]) ∧
    writeSingleReply [] (120 :: [1, 2, 3]) = some (.unexpectedPacket 120, [1, 2, 3]) :=
  ⟨(unexpected_header_faults wTag [1, 2, 3] [] (by decide)).1 (by decide),
   (unexpected_header_faults wTag [1, 2, 3] [] (by decide)).2.1 (by decide),
   (unexpected_header_faults wTag [1, 2, 3] [] (by decide)).2.2.1 (by decide),
   (unexpected_header_faults wTag [1, 2, 3] [] (by decide)).2.2.2.1 (by decide),
   (unexpected_header_faults 120 [1, 2, 3] [] (by decide)).2.2.2.2 (by decide)⟩

/-! ## C6: chip-family byte warning is non-fatal -/

/-- **C6** (confirmed).  When the first presentation byte of the decoded
UID (the last wire byte) is not `0xD0`, `dump_counter.py` emits the
warning yet still issues the follow-up `R` request built from the same
wire UID: the chip-family check is never a hard failure. -/
theorem msb_warning_nonfatal (packet : List Nat) (_h9 : packet.length = 9)
    (hu : packet.headD 0 = uTag)
    (hmsb : ((packet.drop 1).reverse).headD 0 ≠ 0xD0) :
    dumpCounterPoll packet = .ok true (dumpCounterRequest (packet.drop 1)) := by
  simp only [dumpCounterPoll, if_pos hu]
  rw [decide_eq_true hmsb]

/-- Witness: a UID whose presentation MSB is `0xC0`. -/
theorem msb_warning_nonfatal_witness :
    dumpCounterPoll (uTag :: [1, 2, 3, 4, 5, 6, 7, 0xC0]) =
      .ok true (dumpCounterRequest ((uTag :: [1, 2, 3, 4, 5, 6, 7, 0xC0]).drop 1)) :=
  msb_warning_nonfatal (uTag :: [1, 2, 3, 4, 5, 6, 7, 0xC0]) (by decide) (by decide)
    (by decide)

/-! ## C7: UID presentation order -/

/-- **C7** (confirmed).  The UID presented to the human-facing layer is
exactly the byte reversal of the 8-byte wire UID: presentation byte `i`
is wire byte `7 - i`; in particular the chip-family byte (presentation
index 0) is wire byte 7 and the manufacturer byte (presentation index 1)
is wire byte 6. -/
theorem present_uid_reversal (wire : List Nat) (h : wire.length = 8)
    (i : Nat) (hi : i < 8) :
    (presentUid wire).get ⟨i, by simp [presentUid, h]; omega⟩ =
      wire.get ⟨7 - i, by omega⟩ ∧
    (presentUid wire).get ⟨0, by simp [presentUid, h]⟩ = wire.get ⟨7, by omega⟩ ∧
    (presentUid wire).get ⟨1, by simp [presentUid, h]⟩ = wire.get ⟨6, by omega⟩ := by
  obtain ⟨a₁, a₂, a₃, a₄, a₅, a₆, a₇, a₈, rfl⟩ := cons8_of_length wire h
  refine ⟨?_, rfl, rfl⟩
  interval_cases i <;> rfl

/-- Witness at a concrete wire UID and index 2. -/
theorem present_uid_reversal_witness :
    (presentUid [10, 11, 12, 13, 14, 15, 16, 17]).get ⟨2, by decide⟩ =
      [10, 11, 12, 13, 14, 15, 16, 17].get ⟨7 - 2, by decide⟩ ∧
    (presentUid [10, 11, 12, 13, 14, 15, 16, 17]).get ⟨0, by decide⟩ =
      [10, 11, 12, 13, 14, 15, 16, 17].get ⟨7, by decide⟩ ∧
    (presentUid [10, 11, 12, 13, 14, 15, 16, 17]).get ⟨1, by decide⟩ =
      [10, 11, 12, 13, 14, 15, 16, 17].get ⟨6, by decide⟩ :=
  present_uid_reversal [10, 11, 12, 13, 14, 15, 16, 17] (by decide) 2 (by decide)

/-! ## C8: MODELS prefix table ambiguity -/

set_option maxRecDepth 4000 in
lemma models_bounds_key :
    ∀ b, b < 256 →
      ((MODELS02.filter fun e => entryMatches b e).length ≤ 2 ∧
       (MODELS02.filter fun e => entryMatches b e && e.bits == 6).length ≤ 1 ∧
       (MODELS02.filter fun e => entryMatches b e && e.bits == 8).length ≤ 1) := by
  decide

/-- **C8** (counterexample).  The model byte `0x1B` matches two entries of
`MODELS[0x02]`: the 6-bit entry `0b000110` (SRI512, since `0x1B >> 2 = 6`)
and the 8-bit entry `0x1B` (ST25TB512-AC).  Consequently the first match
depends on the iteration order of the set: scanning the table forwards
and backwards selects different entries. -/
theorem models_double_match_order_dependent :
    (MODELS02.filter fun e => entryMatches 0x1B e).length = 2 ∧
    firstMatch MODELS02 0x1B ≠ firstMatch MODELS02.reverse 0x1B := by decide

/-- **C8** (amended).  For every model byte, at most one 6-bit entry and
at most one 8-bit entry of `MODELS[0x02]` match, hence at most two
entries in total; the reported name is therefore determined by the UID
only up to the relative order of the 6-bit and 8-bit entries in the set
iteration. -/
theorem models_match_bounds (b : Nat) (hb : b < 256) :
    (MODELS02.filter fun e => entryMatches b e).length ≤ 2 ∧
    (MODELS02.filter fun e => entryMatches b e && e.bits == 6).length ≤ 1 ∧
    (MODELS02.filter fun e => entryMatches b e && e.bits == 8).length ≤ 1 :=
  models_bounds_key b hb

/-- Witness: the bounds at the doubly-matched byte `0x1B`. -/
theorem models_match_bounds_witness :
    (MODELS02.filter fun e => entryMatches 0x1B e).length ≤ 2 ∧
    (MODELS02.filter fun e => entryMatches 0x1B e && e.bits == 6).length ≤ 1 ∧
    (MODELS02.filter fun e => entryMatches 0x1B e && e.bits == 8).length ≤ 1 :=
  models_match_bounds 0x1B (by decide)

/-! ## C9: counter decrement encoding -/

/-- **C9** (confirmed).  For any 4-byte counter value, encoding
`counter - 1` with `to_bytes(4, "little", signed = counter - 1 < 0)`
never raises, and yields exactly the 4 little-endian bytes of
`(counter - 1) mod 2^32`: the `signed=True` path is taken only for
`counter = 0`, where `-1` is within the signed 32-bit range. -/
theorem decrement_encode_ok (counter : Nat) (h : counter < 2 ^ 32) :
    decrementEncode counter =
      some (natToLE 4 (((counter : Int) - 1) % 2 ^ 32).toNat) ∧
    (natToLE 4 (((counter : Int) - 1) % 2 ^ 32).toNat).length = 4 := by
  refine ⟨?_, natToLE_length 4 _⟩
  rcases Nat.eq_zero_or_pos counter with h0 | h0
  · subst h0; decide
  · have hv0 : (0 : Int) ≤ (counter : Int) - 1 := by
      have : (1 : Int) ≤ (counter : Int) := by exact_mod_cast h0
      omega
    have hvlt : (counter : Int) - 1 < 2 ^ 32 := by
      have hlt : (counter : Int) < 2 ^ 32 := by exact_mod_cast h
      linarith
    rw [decrementEncode, pyToBytes]
    rw [decide_eq_false (by omega : ¬((counter : Int) - 1 < 0))]
    simp only [Bool.false_eq_true, if_false]
    rw [if_pos ⟨hv0, by simpa using hvlt⟩]
    rw [Int.emod_eq_of_lt hv0 hvlt]

/-- Witness: the wrap-around case `counter = 0`. -/
theorem decrement_encode_ok_witness :
    decrementEncode 0 =
      some (natToLE 4 ((((0 : Nat) : Int) - 1) % 2 ^ 32).toNat) ∧
    (natToLE 4 ((((0 : Nat) : Int) - 1) % 2 ^ 32).toNat).length = 4 :=
  decrement_encode_ok 0 (by norm_num)

/-! ## C10: serial-start rule -/

set_option maxRecDepth 8000 in
lemma serial_rule_key :
    ∀ b, b < 256 → processModels MODELS02 b = specSerialRule MODELS02 b := by
  decide

/-- **C10** (confirmed).  For every model byte, the loop of
`simple_uid_reader.py` realises the claimed serial rule with respect to
the entry it selects (the first matching one): a matching entry of width
`b < 8` clears the top `b` bits of presentation byte 2
(`uid[2] & ~(model << (8 - bits)) = uid[2] mod 2^(8-bits)`) and keeps the
serial at byte index 2; a matching 8-bit entry keeps byte 2 and starts
the serial at index 3; no match keeps byte 2 unmodified with the serial
at index 2. -/
theorem serial_start_rule (b : Nat) (hb : b < 256) :
    processModels MODELS02 b = specSerialRule MODELS02 b :=
  serial_rule_key b hb

/-- Witness: byte `0x1B` (first match is the 6-bit SRI512 entry). -/
theorem serial_start_rule_witness :
    processModels MODELS02 0x1B = specSerialRule MODELS02 0x1B :=
  serial_start_rule 0x1B (by decide)

end CR14
